import Mathlib

/-!
Shallow embedding of the `yatube` blogging application (Django), covering the
posts app: the data model (`posts/models.py`), the paginator helper and the
view functions (`posts/views.py`).  Users are identified by their unique
username, modelled as a natural number; timestamps (`pub_date`) are natural
numbers; querysets are Lean lists.
-/

namespace Yatube

/-- Post (posts/models.py): text, author FK, optional group FK, optional
image, plus the creation timestamp `pub_date` inherited from `CreatedModel`;
`Meta.ordering = [-pub_date]`.  `id` is the database primary key. -/
structure Post where
  id : Nat
  text : String
  author : Nat
  group : Option Nat
  image : String
  pub_date : Nat
deriving DecidableEq

/-- Group (posts/models.py): title, unique slug, description.  The slug is
the lookup key; we identify groups by a numeric id and keep the slug. -/
structure Group where
  id : Nat
  title : String
  slug : String
  description : String
deriving DecidableEq

/-- Comment (posts/models.py): post FK, author FK, text. -/
structure Comment where
  post : Nat
  author : Nat
  text : String
deriving DecidableEq

/-- Follow (posts/models.py): follower `user` FK and followed `author` FK,
with `unique_together ((user, author))`. -/
structure Follow where
  user : Nat
  author : Nat
deriving DecidableEq

/-- The relational store: user table (usernames), post, follow and comment
tables.  Rows appear in insertion order; querysets sort on retrieval. -/
structure DB where
  users : List Nat
  posts : List Post
  follows : List Follow
  comments : List Comment
deriving DecidableEq

/-- The outcome of a view: a rendered template, a redirect, or a 404
raised by `get_object_or_404`. -/
inductive Response where
  | render (template : String)
  | redirect (url : String)
  | notFound
deriving DecidableEq

def Response.isRender : Response → Bool
  | .render _ => true
  | _ => false

/-- HTTP request method, as tested by `request.method == POST`. -/
inductive Method where
  | GET
  | POST
deriving DecidableEq

/-! ### Pagination (views.py `get_paginator`, Django `Paginator`) -/

def NUMBER_OF_POSTS : Nat := 10

/-- The `page` query parameter as `request.GET.get` hands it to
`Paginator.get_page`: absent (`None`), a string `int()` rejects, or a string
parsed to the integer `n`. -/
inductive PageParam where
  | absent
  | notAnInt
  | int (n : Int)
deriving DecidableEq

/-- Django `Paginator.num_pages` (orphans 0, allow_empty_first_page true):
`ceil(max(1, count) / per_page)`. -/
def num_pages (count per_page : Nat) : Nat :=
  (max 1 count + per_page - 1) / per_page

/-- Django `Paginator.get_page` composed with `validate_number`: a parameter
that is not an integer (or is missing) gives page 1; an integer below 1 or
above `num_pages` gives the last page (`num_pages`). -/
def get_page_number (param : PageParam) (count : Nat) : Nat :=
  match param with
  | .absent => 1
  | .notAnInt => 1
  | .int n =>
    if n < 1 then num_pages count NUMBER_OF_POSTS
    else if (num_pages count NUMBER_OF_POSTS : Int) < n then
      num_pages count NUMBER_OF_POSTS
    else n.toNat

/-- `Page.object_list` for the validated 1-based page `number`: the slice
from `(number-1)*per_page` of length at most `per_page`. -/
def page_items (l : List Post) (number : Nat) : List Post :=
  (l.drop ((number - 1) * NUMBER_OF_POSTS)).take NUMBER_OF_POSTS

/-- `get_paginator` (views.py): build a `Paginator(post_list, 10)` and return
the page selected by the request's `page` parameter. -/
def get_paginator (param : PageParam) (post_list : List Post) : List Post :=
  page_items post_list (get_page_number param post_list.length)

/-! ### Querysets and feed scopes -/

/-- The queryset order from `Post.Meta.ordering = [-pub_date]`:
descending creation time. -/
def postLE (a b : Post) : Prop := b.pub_date ≤ a.pub_date

instance : IsTotal Post postLE := ⟨fun a b => Nat.le_total b.pub_date a.pub_date⟩

instance : IsTrans Post postLE :=
  ⟨fun _ _ _ hab hbc => Nat.le_trans hbc hab⟩

instance : DecidableRel postLE :=
  fun a b => inferInstanceAs (Decidable (b.pub_date ≤ a.pub_date))

/-- `Post.objects.all()`: every post, in the model's `Meta.ordering`. -/
def postsAll (db : DB) : List Post := List.insertionSort postLE db.posts

/-- `group.posts.all()` (the `related_name=posts` reverse FK). -/
def groupPosts (db : DB) (g : Nat) : List Post :=
  (postsAll db).filter (fun p => p.group == some g)

/-- `author.posts.all()` (profile view). -/
def authorPosts (db : DB) (a : Nat) : List Post :=
  (postsAll db).filter (fun p => p.author == a)

/-- `Post.objects.filter(author__following__user=request.user)`
(follow_index view): posts whose author has a `Follow` row pointing at them
from `u`. -/
def followPosts (db : DB) (u : Nat) : List Post :=
  (postsAll db).filter
    (fun p => db.follows.any (fun f => f.user == u && f.author == p.author))

/-- The four feed scopes of views.py: index, group_posts, profile,
follow_index. -/
inductive Scope where
  | all
  | group (g : Nat)
  | author (a : Nat)
  | following (u : Nat)

def scopePosts (db : DB) : Scope → List Post
  | .all => postsAll db
  | .group g => groupPosts db g
  | .author a => authorPosts db a
  | .following u => followPosts db u

/-- The `page_obj` handed to the template by each feed view. -/
def scopePage (db : DB) (s : Scope) (param : PageParam) : List Post :=
  get_paginator param (scopePosts db s)

/-! ### URLs (posts/urls.py routes, as exercised by the tests) -/

def profileUrl (username : Nat) : String :=
  "/profile/" ++ toString username ++ "/"

def profileFollowUrl (username : Nat) : String :=
  profileUrl username ++ "follow/"

def profileUnfollowUrl (username : Nat) : String :=
  profileUrl username ++ "unfollow/"

def postDetailUrl (post_id : Nat) : String :=
  "/posts/" ++ toString post_id ++ "/"

def postEditUrl (post_id : Nat) : String :=
  postDetailUrl post_id ++ "edit/"

def addCommentUrl (post_id : Nat) : String :=
  postDetailUrl post_id ++ "comment/"

def createUrl : String := "/create/"

/-- `@login_required` redirect target: `/auth/login/?next=<route>`
(settings `LOGIN_URL`, shown in test_urls.py). -/
def loginUrl (next : String) : String := "/auth/login/?next=" ++ next

/-! ### Forms -/

/-- Modelled from the spec: `posts/forms.py` is not under `src/`.  Per the
spec's form layer (declarative input validation for post creation/edit) and
the fields the tests exhibit (`text`, `group`, `image`), `PostForm` binds
these three fields; the required `text` must be nonempty for the bound form
to be valid. -/
structure PostFormData where
  text : String
  group : Option Nat
  image : String
deriving DecidableEq

def PostFormData.is_valid (f : PostFormData) : Bool := f.text ≠ ""

/-- Modelled from the spec: `posts/forms.py` is not under `src/`.
`CommentForm` binds the single required `text` field. -/
structure CommentFormData where
  text : String
deriving DecidableEq

/-- `CommentForm(request.POST or None).is_valid()`: an unbound form
(`none`, i.e. an empty `request.POST`) is never valid; a bound form is valid
iff its required text is nonempty. -/
def commentFormValid : Option CommentFormData → Bool
  | none => false
  | some f => f.text ≠ ""

/-! ### Views (posts/views.py) -/

/-- `get_object_or_404(Post, id=post_id)`. -/
def findPost (db : DB) (post_id : Nat) : Option Post :=
  db.posts.find? (fun p => p.id == post_id)

/-- `post_create` (views.py, `@login_required`): anonymous actors are
redirected to login; a valid POST saves a post whose author is
`request.user` (the database assigns `newId`, `auto_now_add` assigns
`newDate`) and redirects to the actor's profile; otherwise the form page is
rendered. -/
def post_create (db : DB) (actor : Option Nat) (method : Method)
    (form : PostFormData) (newId newDate : Nat) : DB × Response :=
  match actor with
  | none => (db, .redirect (loginUrl createUrl))
  | some u =>
    match method with
    | .POST =>
      if form.is_valid then
        ({db with posts :=
            db.posts ++ [⟨newId, form.text, u, form.group, form.image, newDate⟩]},
         .redirect (profileUrl u))
      else (db, .render "posts/post_create.html")
    | .GET => (db, .render "posts/post_create.html")

/-- `post_edit` (views.py, no login decorator): 404 on a missing post; any
actor other than the post's author — the anonymous user included — is
redirected to the post's detail page; the author's valid POST updates the
post's bound fields and redirects to the detail page; otherwise the form
page is rendered. -/
def post_edit (db : DB) (actor : Option Nat) (post_id : Nat)
    (method : Method) (form : PostFormData) : DB × Response :=
  match findPost db post_id with
  | none => (db, .notFound)
  | some post =>
    if actor ≠ some post.author then
      (db, .redirect (postDetailUrl post_id))
    else
      match method with
      | .POST =>
        if form.is_valid then
          ({db with posts := db.posts.map (fun p =>
              if p.id == post_id then
                {p with text := form.text, group := form.group,
                        image := form.image}
              else p)},
           .redirect (postDetailUrl post_id))
        else (db, .render "posts/post_create.html")
      | .GET => (db, .render "posts/post_create.html")

/-- `add_comment` (views.py, `@login_required`): anonymous actors are
redirected to login; otherwise 404 on a missing post; a valid form saves a
comment by `request.user` on the post; valid or not, the view redirects to
the post's detail page. -/
def add_comment (db : DB) (actor : Option Nat) (post_id : Nat)
    (form : Option CommentFormData) : DB × Response :=
  match actor with
  | none => (db, .redirect (loginUrl (addCommentUrl post_id)))
  | some u =>
    match findPost db post_id with
    | none => (db, .notFound)
    | some _ =>
      if commentFormValid form then
        match form with
        | some f =>
          ({db with comments := db.comments ++ [⟨post_id, u, f.text⟩]},
           .redirect (postDetailUrl post_id))
        | none => (db, .redirect (postDetailUrl post_id))
      else (db, .redirect (postDetailUrl post_id))

/-- `profile_follow` (views.py, `@login_required`): anonymous actors are
redirected to login; 404 on a missing author; a `Follow(user, author)` row
is created unless the actor is the author or the row already exists; the
view redirects to the author's profile. -/
def profile_follow (db : DB) (actor : Option Nat) (username : Nat) :
    DB × Response :=
  match actor with
  | none => (db, .redirect (loginUrl (profileFollowUrl username)))
  | some u =>
    if username ∈ db.users then
      if u ≠ username ∧
          db.follows.any (fun f => f.user == u && f.author == username) = false
      then
        ({db with follows := db.follows ++ [⟨u, username⟩]},
         .redirect (profileUrl username))
      else (db, .redirect (profileUrl username))
    else (db, .notFound)

/-- `profile_unfollow` (views.py, `@login_required`): anonymous actors are
redirected to login; 404 on a missing author; every `Follow(user, author)`
row of the actor for this author is deleted; the view redirects to the
author's profile. -/
def profile_unfollow (db : DB) (actor : Option Nat) (username : Nat) :
    DB × Response :=
  match actor with
  | none => (db, .redirect (loginUrl (profileUnfollowUrl username)))
  | some u =>
    if username ∈ db.users then
      ({db with follows :=
          db.follows.filter (fun f => !(f.user == u && f.author == username))},
       .redirect (profileUrl username))
    else (db, .notFound)

/-- The number of `Follow(u, a)` rows in the store. -/
def countFollows (db : DB) (u a : Nat) : Nat :=
  (db.follows.filter (fun f => f.user == u && f.author == a)).length

/-! ### Concrete data for witnesses -/

def mkPost (i : Nat) : Post :=
  { id := i, text := "t", author := 0, group := none, image := "",
    pub_date := i }

def examplePosts13 : List Post := (List.range 13).map mkPost

def examplePost : Post :=
  { id := 1, text := "first", author := 1, group := some 1,
    image := "", pub_date := 5 }

def exampleDB : DB :=
  { users := [1, 2],
    posts := [examplePost],
    follows := [{ user := 2, author := 1 }],
    comments := [] }

def exampleForm : PostFormData :=
  { text := "hello", group := none, image := "" }

/-! ### Helper lemmas -/

theorem length_page_items_le (l : List Post) (n : Nat) :
    (page_items l n).length ≤ NUMBER_OF_POSTS := by
  unfold page_items
  calc ((l.drop ((n - 1) * NUMBER_OF_POSTS)).take NUMBER_OF_POSTS).length
      ≤ NUMBER_OF_POSTS := by
        rw [List.length_take]
        exact min_le_left _ _

theorem page_items_sublist (l : List Post) (n : Nat) :
    (page_items l n).Sublist l := by
  unfold page_items
  exact (List.take_sublist _ _).trans (List.drop_sublist _ _)

theorem pairwise_scopePosts (db : DB) (s : Scope) :
    (scopePosts db s).Pairwise postLE := by
  have hall : (postsAll db).Pairwise postLE :=
    List.sorted_insertionSort postLE db.posts
  cases s with
  | all => exact hall
  | group g => exact hall.sublist (List.filter_sublist _) |>.imp (fun h => h)
  | author a => exact hall.sublist (List.filter_sublist _) |>.imp (fun h => h)
  | following u => exact hall.sublist (List.filter_sublist _) |>.imp (fun h => h)

theorem one_le_num_pages (count : Nat) :
    1 ≤ num_pages count NUMBER_OF_POSTS := by
  unfold num_pages NUMBER_OF_POSTS
  rw [Nat.le_div_iff_mul_le (by omega)]
  omega

theorem get_page_number_bounds (param : PageParam) (count : Nat) :
    1 ≤ get_page_number param count ∧
    get_page_number param count ≤ num_pages count NUMBER_OF_POSTS := by
  have hnp := one_le_num_pages count
  cases param with
  | absent => exact ⟨le_refl 1, hnp⟩
  | notAnInt => exact ⟨le_refl 1, hnp⟩
  | int n =>
    simp only [get_page_number]
    split_ifs with h1 h2
    · exact ⟨hnp, le_refl _⟩
    · exact ⟨hnp, le_refl _⟩
    · constructor <;> omega

/-- Claim C1: every rendered feed page — all posts, a group's, an author's,
the followed-authors feed — holds at most `NUMBER_OF_POSTS = 10` posts, and
a 13-post collection splits into a first page of exactly 10 posts and a
second page of exactly the remaining 3. -/
theorem C1_page_size :
    (∀ (db : DB) (s : Scope) (param : PageParam),
        (scopePage db s param).length ≤ NUMBER_OF_POSTS) ∧
    (∀ l : List Post, l.length = 13 →
        (get_paginator (.int 1) l).length = 10 ∧
        (get_paginator (.int 2) l).length = 3 ∧
        get_paginator (.int 1) l ++ get_paginator (.int 2) l = l) := by
  constructor
  · intro db s param
    exact length_page_items_le _ _
  · intro l hl
    have hp1 : get_page_number (.int 1) 13 = 1 := by decide
    have hp2 : get_page_number (.int 2) 13 = 2 := by decide
    have h1 : get_paginator (.int 1) l = l.take 10 := by
      unfold get_paginator
      rw [hl, hp1]
      simp [page_items, NUMBER_OF_POSTS]
    have h2 : get_paginator (.int 2) l = l.drop 10 := by
      unfold get_paginator
      rw [hl, hp2]
      unfold page_items NUMBER_OF_POSTS
      exact List.take_of_length_le (by simp [hl])
    refine ⟨?_, ?_, ?_⟩
    · rw [h1, List.length_take, hl]
      rfl
    · rw [h2, List.length_drop, hl]
    · rw [h1, h2]
      exact List.take_append_drop 10 l

/-- Witness for C1 on the concrete 13-post collection `examplePosts13`. -/
theorem C1_page_size_witness :
    (get_paginator (.int 1) examplePosts13).length = 10 ∧
    (get_paginator (.int 2) examplePosts13).length = 3 ∧
    get_paginator (.int 1) examplePosts13
      ++ get_paginator (.int 2) examplePosts13 = examplePosts13 :=
  C1_page_size.2 examplePosts13 (by decide)

/-- Claim C8: every rendered feed page lists posts in descending creation
time: pairwise (hence for consecutive posts), an earlier-listed post's
`pub_date` is at least the later-listed one's (`postLE`). -/
theorem C8_page_ordered (db : DB) (s : Scope) (param : PageParam) :
    (scopePage db s param).Pairwise postLE :=
  (pairwise_scopePosts db s).sublist (page_items_sublist _ _)

/-- Claim C9 counterexample: on 13 posts, page parameter `0` (below 1) is
sent by `Paginator.get_page` to the last page (page 2, the final 3 posts),
not to the nearest valid page, page 1. -/
theorem C9_counterexample :
    get_paginator (.int 0) examplePosts13 = page_items examplePosts13 2 ∧
    page_items examplePosts13 2 ≠ page_items examplePosts13 1 := by
  constructor
  · decide
  · decide

/-- Claim C9 (amended): pagination never errors — every page parameter
yields a valid page number between 1 and `num_pages` and the corresponding
page is rendered; a missing or non-integer parameter yields page 1, while an
integer below 1 or above the last page yields the last page (not the
nearest valid page). -/
theorem C9_amended_clamp (param : PageParam) (l : List Post) :
    1 ≤ get_page_number param l.length ∧
    get_page_number param l.length ≤ num_pages l.length NUMBER_OF_POSTS ∧
    ((param = .absent ∨ param = .notAnInt) →
        get_page_number param l.length = 1) ∧
    (∀ n : Int, param = .int n →
        (n < 1 ∨ (num_pages l.length NUMBER_OF_POSTS : Int) < n) →
        get_page_number param l.length
          = num_pages l.length NUMBER_OF_POSTS) ∧
    get_paginator param l = page_items l (get_page_number param l.length) := by
  obtain ⟨hlo, hhi⟩ := get_page_number_bounds param l.length
  refine ⟨hlo, hhi, ?_, ?_, rfl⟩
  · rintro (rfl | rfl) <;> rfl
  · rintro n rfl hout
    simp only [get_page_number]
    rcases hout with h | h
    · rw [if_pos h]
    · rw [if_neg (by omega), if_pos h]

/-- Witness for C9 (amended) at the out-of-range parameter 0 on 13 posts. -/
theorem C9_amended_clamp_witness :
    1 ≤ get_page_number (.int 0) examplePosts13.length ∧
    get_page_number (.int 0) examplePosts13.length
      ≤ num_pages examplePosts13.length NUMBER_OF_POSTS ∧
    ((PageParam.int 0 = .absent ∨ PageParam.int 0 = .notAnInt) →
        get_page_number (.int 0) examplePosts13.length = 1) ∧
    (∀ n : Int, PageParam.int 0 = .int n →
        (n < 1 ∨ (num_pages examplePosts13.length NUMBER_OF_POSTS : Int) < n) →
        get_page_number (.int 0) examplePosts13.length
          = num_pages examplePosts13.length NUMBER_OF_POSTS) ∧
    get_paginator (.int 0) examplePosts13
      = page_items examplePosts13
          (get_page_number (.int 0) examplePosts13.length) :=
  C9_amended_clamp (.int 0) examplePosts13

theorem any_iff_countFollows_pos (l : List Follow) (u a : Nat) :
    l.any (fun f => f.user == u && f.author == a) = true ↔
    0 < (l.filter (fun f => f.user == u && f.author == a)).length := by
  constructor
  · intro h
    obtain ⟨f, hf, hp⟩ := List.any_eq_true.mp h
    exact List.length_pos.mpr
      (List.ne_nil_of_mem (List.mem_filter.mpr ⟨hf, hp⟩))
  · intro h
    obtain ⟨f, hf⟩ := List.exists_mem_of_length_pos h
    obtain ⟨hm, hp⟩ := List.mem_filter.mp hf
    exact List.any_eq_true.mpr ⟨f, hm, hp⟩

theorem countFollows_append_self (fl : List Follow) (u a : Nat) :
    ((fl ++ [({ user := u, author := a } : Follow)]).filter
        (fun f => f.user == u && f.author == a)).length
      = (fl.filter (fun f => f.user == u && f.author == a)).length + 1 := by
  rw [List.filter_append, List.length_append]
  simp

/-- Claim C2: with at most one `Follow(u, a)` row present (the
`unique_together` invariant) and an existing author `a`, a follow request
by `u ≠ a` leaves exactly one `Follow(u, a)` row; a second identical
request changes nothing; and a self-follow request (`u = a`) changes
nothing. -/
theorem C2_follow_idempotent (db : DB) (u a : Nat) (hmem : a ∈ db.users)
    (hinv : countFollows db u a ≤ 1) :
    (u ≠ a → countFollows (profile_follow db (some u) a).1 u a = 1) ∧
    (profile_follow (profile_follow db (some u) a).1 (some u) a).1
      = (profile_follow db (some u) a).1 ∧
    (u = a → (profile_follow db (some u) a).1 = db) := by
  by_cases hne : u = a
  · subst hne
    have hstate : (profile_follow db (some u) u).1 = db := by
      simp [profile_follow, hmem]
    refine ⟨fun h => absurd rfl h, ?_, fun _ => hstate⟩
    rw [hstate, hstate]
  · by_cases hany :
        db.follows.any (fun f => f.user == u && f.author == a) = true
    · -- the relation already exists: both requests are no-ops
      have hstate : (profile_follow db (some u) a).1 = db := by
        simp [profile_follow, hmem, hany]
      have hpos := (any_iff_countFollows_pos db.follows u a).mp hany
      refine ⟨fun _ => ?_, ?_, fun h => absurd h hne⟩
      · rw [hstate]
        unfold countFollows at hinv hpos ⊢
        omega
      · rw [hstate, hstate]
    · -- the relation is created by the first request only
      have hany' :
          db.follows.any (fun f => f.user == u && f.author == a) = false :=
        Bool.eq_false_iff.mpr hany
      have hzero : countFollows db u a = 0 := by
        have := (any_iff_countFollows_pos db.follows u a).mpr
        unfold countFollows
        by_contra h
        exact hany (this (by omega))
      have hstate : (profile_follow db (some u) a).1
          = {db with follows := db.follows ++ [⟨u, a⟩]} := by
        simp [profile_follow, hmem, hne, hany']
      refine ⟨fun _ => ?_, ?_, fun h => absurd h hne⟩
      · rw [hstate]
        unfold countFollows at hzero ⊢
        simp only
        rw [countFollows_append_self, hzero]
      · rw [hstate]
        have hany2 : (db.follows ++ [(⟨u, a⟩ : Follow)]).any
            (fun f => f.user == u && f.author == a) = true := by
          rw [List.any_append]
          simp
        simp [profile_follow, hmem, hany2]

/-- Witness for C2: user 1 follows author 2 in `exampleDB`. -/
theorem C2_follow_idempotent_witness :
    (1 ≠ 2 → countFollows (profile_follow exampleDB (some 1) 2).1 1 2 = 1) ∧
    (profile_follow (profile_follow exampleDB (some 1) 2).1 (some 1) 2).1
      = (profile_follow exampleDB (some 1) 2).1 ∧
    (1 = 2 → (profile_follow exampleDB (some 1) 2).1 = exampleDB) :=
  C2_follow_idempotent exampleDB 1 2 (by decide) (by decide)

theorem length_filter_not_add (l : List Follow) (p : Follow → Bool) :
    (l.filter (fun f => !(p f))).length + (l.filter p).length = l.length := by
  induction l with
  | nil => rfl
  | cons x xs ih =>
    by_cases h : p x <;> simp [List.filter_cons, h] <;> omega

/-- Claim C3: for an existing author `a` and the `unique_together`
invariant, unfollow deletes exactly the `Follow(u, a)` rows (zero or one of
them), is a no-op when `u` does not follow `a`, is idempotent, and always
responds with a redirect to `a`'s profile. -/
theorem C3_unfollow_idempotent (db : DB) (u a : Nat) (hmem : a ∈ db.users)
    (hinv : countFollows db u a ≤ 1) :
    (profile_unfollow db (some u) a).1.follows.length + countFollows db u a
        = db.follows.length ∧
    db.follows.length ≤ (profile_unfollow db (some u) a).1.follows.length + 1 ∧
    (countFollows db u a = 0 → (profile_unfollow db (some u) a).1 = db) ∧
    (profile_unfollow (profile_unfollow db (some u) a).1 (some u) a).1
        = (profile_unfollow db (some u) a).1 ∧
    (profile_unfollow db (some u) a).2 = .redirect (profileUrl a) := by
  have hstate : (profile_unfollow db (some u) a).1
      = {db with follows :=
          db.follows.filter (fun f => !(f.user == u && f.author == a))} := by
    simp [profile_unfollow, hmem]
  have hpart : (profile_unfollow db (some u) a).1.follows.length
      + countFollows db u a = db.follows.length := by
    rw [hstate]
    exact length_filter_not_add db.follows _
  refine ⟨hpart, by omega, ?_, ?_, by simp [profile_unfollow, hmem]⟩
  · intro hzero
    rw [hstate]
    have hlen : (db.follows.filter
        (fun f => !(f.user == u && f.author == a))).length
          = db.follows.length := by
      have := length_filter_not_add db.follows
        (fun f => f.user == u && f.author == a)
      unfold countFollows at hzero
      omega
    have heq : db.follows.filter (fun f => !(f.user == u && f.author == a))
        = db.follows := (List.filter_sublist _).eq_of_length hlen
    rw [heq]
  · rw [hstate]
    simp [profile_unfollow, hmem, List.filter_filter]

/-- Witness for C3: user 1 unfollows author 2 (not followed) in
`exampleDB`. -/
theorem C3_unfollow_idempotent_witness :
    (profile_unfollow exampleDB (some 1) 2).1.follows.length
        + countFollows exampleDB 1 2 = exampleDB.follows.length ∧
    exampleDB.follows.length
        ≤ (profile_unfollow exampleDB (some 1) 2).1.follows.length + 1 ∧
    (countFollows exampleDB 1 2 = 0 →
        (profile_unfollow exampleDB (some 1) 2).1 = exampleDB) ∧
    (profile_unfollow (profile_unfollow exampleDB (some 1) 2).1
        (some 1) 2).1 = (profile_unfollow exampleDB (some 1) 2).1 ∧
    (profile_unfollow exampleDB (some 1) 2).2
        = .redirect (profileUrl 2) :=
  C3_unfollow_idempotent exampleDB 1 2 (by decide) (by decide)

/-- Claim C4: any actor other than an existing post's author — the
anonymous actor `none` included — who requests an edit of that post gets a
redirect to the post's detail page, and the store is unchanged (so the
post's text is unaltered), for any method and any submitted form data. -/
theorem C4_edit_guard (db : DB) (actor : Option Nat) (post_id : Nat)
    (method : Method) (form : PostFormData) (p : Post)
    (hp : findPost db post_id = some p) (hne : actor ≠ some p.author) :
    post_edit db actor post_id method form
      = (db, .redirect (postDetailUrl post_id)) := by
  unfold post_edit
  rw [hp]
  simp [hne]

/-- Witness for C4: anonymous edit of post 1 in `exampleDB`. -/
theorem C4_edit_guard_witness :
    post_edit exampleDB none 1 .POST { text := "x", group := none, image := "" }
      = (exampleDB, .redirect (postDetailUrl 1)) :=
  C4_edit_guard exampleDB none 1 .POST _ examplePost (by decide) (by decide)

/-- Claim C5: a post of the store is in the followed-authors feed queryset
of user `u` exactly when some `Follow` row relates `u` to the post's
author; in particular the feed never contains a post whose author `u` does
not follow. -/
theorem C5_follow_feed (db : DB) (u : Nat) (p : Post) (hp : p ∈ db.posts) :
    (p ∈ followPosts db u ↔
      ∃ f ∈ db.follows, f.user = u ∧ f.author = p.author) ∧
    (∀ param : PageParam, p ∈ scopePage db (.following u) param →
      ∃ f ∈ db.follows, f.user = u ∧ f.author = p.author) := by
  have hiff : p ∈ followPosts db u ↔
      ∃ f ∈ db.follows, f.user = u ∧ f.author = p.author := by
    unfold followPosts postsAll
    simp only [List.mem_filter, List.mem_insertionSort, List.any_eq_true,
      Bool.and_eq_true, beq_iff_eq]
    constructor
    · rintro ⟨-, f, hf, h1, h2⟩
      exact ⟨f, hf, h1, h2⟩
    · rintro ⟨f, hf, h1, h2⟩
      exact ⟨hp, f, hf, h1, h2⟩
  refine ⟨hiff, fun param hmem => ?_⟩
  exact hiff.mp ((page_items_sublist _ _).mem hmem)

/-- Witness for C5: `examplePost` (author 1) is in user 2's feed and user 2
follows author 1 in `exampleDB`. -/
theorem C5_follow_feed_witness :
    (examplePost ∈ followPosts exampleDB 2 ↔
      ∃ f ∈ exampleDB.follows, f.user = 2 ∧ f.author = examplePost.author) ∧
    (∀ param : PageParam,
      examplePost ∈ scopePage exampleDB (.following 2) param →
      ∃ f ∈ exampleDB.follows, f.user = 2 ∧ f.author = examplePost.author) :=
  C5_follow_feed exampleDB 2 examplePost (by decide)

/-- Claim C6 counterexample: an anonymous edit request on the existing post
1 is answered with a redirect to the post's detail page, not with a
redirect to the login page carrying `next=/posts/1/edit/`. -/
theorem C6_counterexample :
    (post_edit exampleDB none 1 .GET
        { text := "x", group := none, image := "" }).2
      = .redirect (postDetailUrl 1) ∧
    (post_edit exampleDB none 1 .GET
        { text := "x", group := none, image := "" }).2
      ≠ .redirect (loginUrl (postEditUrl 1)) := by
  constructor
  · decide
  · decide

/-- Claim C6 (amended): an unauthenticated request to post creation,
comment creation, follow or unfollow is redirected to the login page with
`next` naming the requested route, mutating nothing; an unauthenticated
edit request of an existing post is also not acted on, but is redirected to
the post's detail page rather than to login. -/
theorem C6_anonymous_guard (db : DB) (post_id username newId newDate : Nat)
    (method : Method) (pform : PostFormData) (cform : Option CommentFormData)
    (p : Post) (hp : findPost db post_id = some p) :
    post_create db none method pform newId newDate
      = (db, .redirect (loginUrl createUrl)) ∧
    add_comment db none post_id cform
      = (db, .redirect (loginUrl (addCommentUrl post_id))) ∧
    profile_follow db none username
      = (db, .redirect (loginUrl (profileFollowUrl username))) ∧
    profile_unfollow db none username
      = (db, .redirect (loginUrl (profileUnfollowUrl username))) ∧
    post_edit db none post_id method pform
      = (db, .redirect (postDetailUrl post_id)) := by
  refine ⟨rfl, rfl, rfl, rfl, ?_⟩
  unfold post_edit
  rw [hp]
  simp

/-- Witness for C6 (amended) on `exampleDB` and post 1. -/
theorem C6_anonymous_guard_witness :
    post_create exampleDB none .POST exampleForm 2 6
      = (exampleDB, .redirect (loginUrl createUrl)) ∧
    add_comment exampleDB none 1 none
      = (exampleDB, .redirect (loginUrl (addCommentUrl 1))) ∧
    profile_follow exampleDB none 1
      = (exampleDB, .redirect (loginUrl (profileFollowUrl 1))) ∧
    profile_unfollow exampleDB none 1
      = (exampleDB, .redirect (loginUrl (profileUnfollowUrl 1))) ∧
    post_edit exampleDB none 1 .POST exampleForm
      = (exampleDB, .redirect (postDetailUrl 1)) :=
  C6_anonymous_guard exampleDB 1 1 2 6 .POST exampleForm none examplePost
    (by decide)

/-- Claim C7 counterexample: an invalid (empty-text) comment submission by
authenticated user 2 on post 1 creates nothing but is answered with a
redirect to the post's detail page — the form page is not re-rendered. -/
theorem C7_counterexample :
    (add_comment exampleDB (some 2) 1 (some { text := "" })).1
      = exampleDB ∧
    (add_comment exampleDB (some 2) 1 (some { text := "" })).2
      = .redirect (postDetailUrl 1) ∧
    Response.isRender
      (add_comment exampleDB (some 2) 1 (some { text := "" })).2 = false := by
  refine ⟨?_, ?_, ?_⟩ <;> decide

/-- Claim C7 (amended): an invalid post-creation or post-edit submission
re-renders the form page and mutates nothing; an invalid comment submission
likewise creates no comment, but redirects to the post's detail page
instead of re-rendering the form. -/
theorem C7_invalid_forms (db : DB) (u post_id newId newDate : Nat)
    (pform : PostFormData) (cform : Option CommentFormData) (p : Post)
    (hpinv : pform.is_valid = false)
    (hcinv : commentFormValid cform = false)
    (hp : findPost db post_id = some p) (hauthor : p.author = u) :
    post_create db (some u) .POST pform newId newDate
      = (db, .render "posts/post_create.html") ∧
    post_edit db (some u) post_id .POST pform
      = (db, .render "posts/post_create.html") ∧
    add_comment db (some u) post_id cform
      = (db, .redirect (postDetailUrl post_id)) := by
  refine ⟨?_, ?_, ?_⟩
  · simp [post_create, hpinv]
  · unfold post_edit
    rw [hp]
    simp [hauthor, hpinv]
  · unfold add_comment
    rw [hp]
    simp [hcinv]

/-- Witness for C7 (amended): empty-text submissions by author 1 on post 1
in `exampleDB`. -/
theorem C7_invalid_forms_witness :
    post_create exampleDB (some 1) .POST
        { text := "", group := none, image := "" } 2 6
      = (exampleDB, .render "posts/post_create.html") ∧
    post_edit exampleDB (some 1) 1 .POST
        { text := "", group := none, image := "" }
      = (exampleDB, .render "posts/post_create.html") ∧
    add_comment exampleDB (some 1) 1 (some { text := "" })
      = (exampleDB, .redirect (postDetailUrl 1)) :=
  C7_invalid_forms exampleDB 1 1 2 6
    { text := "", group := none, image := "" } (some { text := "" })
    examplePost (by decide) (by decide) (by decide) (by decide)

/-- Claim C10: a successful post creation by authenticated user `u` appends
a post whose author is `u`, whatever the submitted form data: the author
column of the post table gains exactly `u`. -/
theorem C10_author_assigned (db : DB) (u newId newDate : Nat)
    (form : PostFormData) (hvalid : form.is_valid = true) :
    (post_create db (some u) .POST form newId newDate).1.posts.map Post.author
      = db.posts.map Post.author ++ [u] := by
  simp [post_create, hvalid]

/-- Witness for C10: user 2 creates a post with a valid form in
`exampleDB`. -/
theorem C10_author_assigned_witness :
    (post_create exampleDB (some 2) .POST exampleForm 2 6).1.posts.map
        Post.author
      = exampleDB.posts.map Post.author ++ [2] :=
  C10_author_assigned exampleDB 2 2 6 exampleForm (by decide)

end Yatube
